import Mathlib

/-!
# Verification of the site-analyzer client (`script.js`)

A shallow embedding of the browser script of this repository: the submit
handler (`submitAnalysis`), the result rendering (`displayResults`,
`showError`) and the download handler (`downloadReport`), together with a
model of the base64 machinery (`atob` following the WHATWG forgiving-base64
decode algorithm, and the standard RFC 4648 base64 encoding used by the
external service, modelled from the spec).

JavaScript numbers appearing in results are modelled as rationals, strings
as Lean strings, `undefined`/`null` as `Option.none`, thrown exceptions as
`Except.error`, and the DOM fields touched by the script as an explicit
record `UIState`.
-/

namespace SiteAnalyzer

/-! ## Base64: alphabet and sextet/character conversion -/

/-- The standard base64 alphabet (RFC 4648), common to the encoding and to
the decode performed by `atob`. -/
def b64Alphabet : List Char :=
  "ABCDEFGHIJKLMNOPQRSTUVWXYZabcdefghijklmnopqrstuvwxyz0123456789+/".data

/-- Character of a six-bit value. -/
def sextetToChar (n : Nat) : Char := b64Alphabet.getD n 'A'

/-- Six-bit value of an alphabet character (`none` for a character outside
the alphabet). -/
def charToSextet (c : Char) : Option Nat := b64Alphabet.indexOf? c

/-! ## Standard base64 encoding

Modelled from the spec: the external analysis service's `report_pdf` field
is "a base64-encoded binary payload"; the encoding itself is outside the
repository, so it is the standard RFC 4648 encoding: bytes are split in
groups of three into four six-bit values, a final group of one byte yields
two characters and `==`, a final group of two bytes yields three characters
and `=`. -/

/-- The six-bit values of the standard base64 encoding of a byte list. -/
def encSextets : List Nat → List Nat
  | b1 :: b2 :: b3 :: rest =>
    let n := b1 * 65536 + b2 * 256 + b3
    n / 262144 % 64 :: n / 4096 % 64 :: n / 64 % 64 :: n % 64 :: encSextets rest
  | [b1, b2] =>
    let n := b1 * 1024 + b2 * 4
    [n / 4096 % 64, n / 64 % 64, n % 64]
  | [b1] =>
    let n := b1 * 16
    [n / 64 % 64, n % 64]
  | [] => []

/-- The padding of the standard base64 encoding of a byte list. -/
def encPad (bs : List Nat) : List Char :=
  match bs.length % 3 with
  | 0 => []
  | 1 => ['=', '=']
  | _ => ['=']

/-- Modelled from the spec: standard base64 encoding of a byte sequence
(the encoding the external service uses for `report_pdf`). -/
def base64Encode (bs : List Nat) : String :=
  String.mk ((encSextets bs).map sextetToChar ++ encPad bs)

/-! ## The `atob` decode (WHATWG forgiving-base64) -/

/-- ASCII whitespace, removed by forgiving-base64 before decoding. -/
def isB64Whitespace (c : Char) : Bool :=
  c = '\t' || c = '\n' || c = '\x0c' || c = '\r' || c = ' '

/-- Step of forgiving-base64: when the data's length is a multiple of four,
up to two trailing `=` characters are removed. -/
def stripPad (cs : List Char) : List Char :=
  if cs.length % 4 = 0 then
    match cs.reverse with
    | '=' :: '=' :: rest => rest.reverse
    | '=' :: rest => rest.reverse
    | _ => cs
  else cs

/-- Looks up the six-bit value of every character, failing on a character
outside the alphabet. -/
def decodeSextets : List Char → Option (List Nat)
  | [] => some []
  | c :: cs =>
    match charToSextet c, decodeSextets cs with
    | some s, some rest => some (s :: rest)
    | _, _ => none

/-- Reassembles bytes from six-bit values: full groups of four values give
three bytes; a final group of three gives two bytes and a final group of two
gives one byte, the leftover low bits being discarded (forgiving-base64). -/
def sextetsToBytes : List Nat → List Nat
  | s1 :: s2 :: s3 :: s4 :: rest =>
    (s1 * 4 + s2 / 16) :: ((s2 % 16) * 16 + s3 / 4) :: ((s3 % 4) * 64 + s4) ::
      sextetsToBytes rest
  | [s1, s2, s3] => [s1 * 4 + s2 / 16, (s2 % 16) * 16 + s3 / 4]
  | [s1, s2] => [s1 * 4 + s2 / 16]
  | [_] => []
  | [] => []

/-- Model of the browser's `atob`: the WHATWG forgiving-base64 decode.
Whitespace is removed, permitted trailing padding is stripped, a remaining
length of 1 mod 4 or a character outside the alphabet is an error
(`none`, modelling the thrown `InvalidCharacterError`), and the six-bit
values are reassembled into bytes. The result is the list of character
codes of the binary string `atob` returns. -/
def atob (s : String) : Option (List Nat) :=
  let data := s.data.filter (fun c => !isB64Whitespace c)
  let data := stripPad data
  if data.length % 4 = 1 then none
  else (decodeSextets data).map sextetsToBytes

/-- The decode step of the download handler (`script.js` lines 87–92):
`atob` on the stored payload, then the per-index `charCodeAt` loop filling
`byteNumbers`. -/
def downloadDecode (payload : String) : Option (List Nat) :=
  match atob payload with
  | none => none
  | some byteCharacters =>
    some ((List.range byteCharacters.length).map fun i => byteCharacters.getD i 0)

/-! ## Round-trip lemmas for the base64 pipeline -/

theorem alphaProps : ∀ n, n < 64 →
    charToSextet (sextetToChar n) = some n ∧ sextetToChar n ≠ '=' ∧
      isB64Whitespace (sextetToChar n) = false := by decide

theorem encSextets_lt (bs : List Nat) : ∀ s ∈ encSextets bs, s < 64 := by
  induction bs using encSextets.induct with
  | case1 b1 b2 b3 rest ih =>
    intro s hs
    simp only [encSextets, List.mem_cons] at hs
    rcases hs with h | h | h | h | h
    · omega
    · omega
    · omega
    · omega
    · exact ih s h
  | case2 b1 b2 =>
    intro s hs
    simp only [encSextets, List.mem_cons, List.not_mem_nil, or_false] at hs
    rcases hs with h | h | h <;> omega
  | case3 b1 =>
    intro s hs
    simp only [encSextets, List.mem_cons, List.not_mem_nil, or_false] at hs
    rcases hs with h | h <;> omega
  | case4 =>
    intro s hs
    simp [encSextets] at hs

theorem encSextets_len (bs : List Nat) :
    3 * (encSextets bs).length = 4 * bs.length + (3 - bs.length % 3) % 3 := by
  induction bs using encSextets.induct with
  | case1 b1 b2 b3 rest ih =>
    simp only [encSextets, List.length_cons] at *
    omega
  | case2 b1 b2 => simp [encSextets]
  | case3 b1 => simp [encSextets]
  | case4 => simp [encSextets]

theorem sextetsToBytes_encSextets (bs : List Nat) (h : ∀ b ∈ bs, b < 256) :
    sextetsToBytes (encSextets bs) = bs := by
  induction bs using encSextets.induct with
  | case1 b1 b2 b3 rest ih =>
    have h1 : b1 < 256 := h b1 (by simp)
    have h2 : b2 < 256 := h b2 (by simp)
    have h3 : b3 < 256 := h b3 (by simp)
    have ih2 := ih fun b hb => h b (by simp [hb])
    simp only [encSextets, sextetsToBytes, ih2]
    refine List.cons_eq_cons.mpr ⟨by omega, List.cons_eq_cons.mpr ⟨by omega,
      List.cons_eq_cons.mpr ⟨by omega, rfl⟩⟩⟩
  | case2 b1 b2 =>
    have h1 : b1 < 256 := h b1 (by simp)
    have h2 : b2 < 256 := h b2 (by simp)
    simp only [encSextets, sextetsToBytes]
    refine List.cons_eq_cons.mpr ⟨by omega, List.cons_eq_cons.mpr ⟨by omega, rfl⟩⟩
  | case3 b1 =>
    have h1 : b1 < 256 := h b1 (by simp)
    simp only [encSextets, sextetsToBytes]
    refine List.cons_eq_cons.mpr ⟨by omega, rfl⟩
  | case4 => simp [encSextets, sextetsToBytes]

theorem decodeSextets_map (ss : List Nat) (h : ∀ s ∈ ss, s < 64) :
    decodeSextets (ss.map sextetToChar) = some ss := by
  induction ss with
  | nil => simp [decodeSextets]
  | cons s rest ih =>
    have hs : s < 64 := h s (by simp)
    have hrest := ih fun x hx => h x (by simp [hx])
    simp only [List.map_cons, decodeSextets, (alphaProps s hs).1, hrest]

theorem stripPad_of_ne (l : List Char) (h : ∀ c ∈ l, c ≠ '=') : stripPad l = l := by
  unfold stripPad
  split
  · split
    · rename_i rest heq
      exfalso
      exact h '=' (by rw [← List.mem_reverse, heq]; simp) rfl
    · rename_i rest heq
      exfalso
      exact h '=' (by rw [← List.mem_reverse, heq]; simp) rfl
    · rfl
  · rfl

theorem stripPad_pad2 (l : List Char) (h4 : (l.length + 2) % 4 = 0) :
    stripPad (l ++ ['=', '=']) = l := by
  unfold stripPad
  rw [if_pos (by simpa using h4)]
  rw [List.reverse_append]
  simp

theorem stripPad_pad1 (l : List Char) (h4 : (l.length + 1) % 4 = 0)
    (h : ∀ c ∈ l, c ≠ '=') (hne : l ≠ []) : stripPad (l ++ ['=']) = l := by
  rcases hrev : l.reverse with _ | ⟨c, rest⟩
  · exact absurd (by simpa using congrArg List.reverse hrev) hne
  · have hc : c ≠ '=' := h c (by rw [← List.mem_reverse, hrev]; simp)
    have hsc : (l ++ ['=']).reverse = '=' :: c :: rest := by
      rw [List.reverse_append, hrev]; rfl
    have hl : l = (c :: rest).reverse := by rw [← hrev, List.reverse_reverse]
    unfold stripPad
    rw [if_pos (by simpa using h4), hsc]
    split
    · rename_i rest2 heq
      exact absurd (List.cons_eq_cons.mp (List.cons_eq_cons.mp heq).2).1 hc
    · rename_i rest2 hno heq
      rw [← (List.cons_eq_cons.mp heq).2, ← hl]
    · rename_i h1 h2
      exact absurd rfl (h2 (c :: rest))

theorem atob_base64Encode (bs : List Nat) (h : ∀ b ∈ bs, b < 256) :
    atob (base64Encode bs) = some bs := by
  have hlt := encSextets_lt bs
  have hlen := encSextets_len bs
  have hne : ∀ c ∈ (encSextets bs).map sextetToChar, c ≠ '=' := by
    intro c hc
    rcases List.mem_map.mp hc with ⟨s, hs, rfl⟩
    exact (alphaProps s (hlt s hs)).2.1
  have hws : ∀ c ∈ (encSextets bs).map sextetToChar ++ encPad bs,
      (!isB64Whitespace c) = true := by
    intro c hc
    rcases List.mem_append.mp hc with hc | hc
    · rcases List.mem_map.mp hc with ⟨s, hs, rfl⟩
      simp [(alphaProps s (hlt s hs)).2.2]
    · have hpad : c = '=' := by
        unfold encPad at hc
        rcases hm : bs.length % 3 with _ | _ | k <;> rw [hm] at hc <;> simp_all
      rw [hpad]; decide
  have hstrip : stripPad ((encSextets bs).map sextetToChar ++ encPad bs)
      = (encSextets bs).map sextetToChar := by
    unfold encPad
    rcases hm : bs.length % 3 with _ | _ | k
    · show stripPad ((encSextets bs).map sextetToChar ++ []) = _
      rw [List.append_nil]
      exact stripPad_of_ne _ hne
    · show stripPad ((encSextets bs).map sextetToChar ++ ['=', '=']) = _
      refine stripPad_pad2 _ ?_
      simp only [List.length_map]
      omega
    · have hm2 : bs.length % 3 = k + 2 := hm
      have hk : k = 0 := by omega
      show stripPad ((encSextets bs).map sextetToChar ++ ['=']) = _
      refine stripPad_pad1 _ ?_ hne ?_
      · simp only [List.length_map]
        omega
      · have hne0 : (encSextets bs).length ≠ 0 := by omega
        simpa using hne0
  have hmod : ((encSextets bs).map sextetToChar).length % 4 ≠ 1 := by
    simp only [List.length_map]
    omega
  simp only [base64Encode, atob, show ∀ l : List Char, (String.mk l).data = l
    from fun _ => rfl, List.filter_eq_self.mpr hws, hstrip, if_neg hmod,
    decodeSextets_map _ hlt]
  show some (sextetsToBytes (encSextets bs)) = some bs
  rw [sextetsToBytes_encSextets bs h]

theorem map_range_getD (l : List Nat) :
    (List.range l.length).map (fun i => l.getD i 0) = l := by
  refine List.ext_getElem (by simp) ?_
  intro i h1 h2
  simp only [List.getElem_map, List.getElem_range]
  rw [List.getD_eq_getElem l 0 h2]

/-! ## The JavaScript number formatting used by `displayResults`

`Number.prototype.toFixed(d)` renders a number with exactly `d` digits
after the decimal point, rounding half away from zero.  Result numbers are
modelled as rationals. -/

/-- Decimal digit character of `n % 10`. -/
def decDigit (n : Nat) : Char :=
  match n % 10 with
  | 0 => '0' | 1 => '1' | 2 => '2' | 3 => '3' | 4 => '4'
  | 5 => '5' | 6 => '6' | 7 => '7' | 8 => '8' | _ => '9'

/-- Fixed-width decimal rendering of `n` on exactly `d` digits (most
significant first, leading zeros kept). -/
def fixedFrac (n : Nat) (d : Nat) : String :=
  String.mk ((List.range d).map fun i => decDigit (n / 10 ^ (d - 1 - i)))

/-- Model of JavaScript's `toFixed`: the magnitude is scaled by `10 ^ d`,
rounded, and printed as an integer part, a point and exactly `d` fractional
digits, with a leading minus sign for a negative input (ECMA-262
`Number.prototype.toFixed` prepends `-` whenever `x < 0`). -/
def toFixed (q : ℚ) (d : Nat) : String :=
  let m : ℤ := round (|q| * (10 : ℚ) ^ d)
  (if q < 0 then "-" else "") ++ (m / (10 : ℤ) ^ d).toNat.repr ++ "."
    ++ fixedFrac (m % (10 : ℤ) ^ d).toNat d

/-- Number of characters strictly after the last `.` of a string. -/
def decimalPlaces (s : String) : Nat :=
  (s.data.reverse.takeWhile fun c => c ≠ '.').length

theorem decDigit_ne_dot (n : Nat) : decDigit n ≠ '.' := by
  unfold decDigit
  rcases hn : n % 10 with _ | _ | _ | _ | _ | _ | _ | _ | _ | k <;>
    first
    | decide
    | exact (by decide : ('9' : Char) ≠ '.')

theorem decimalPlaces_append_frac (p : String) (l : List Char)
    (hl : ∀ c ∈ l, c ≠ '.') :
    decimalPlaces (p ++ "." ++ String.mk l) = l.length := by
  unfold decimalPlaces
  rw [String.data_append, String.data_append]
  rw [show (String.mk l).data = l from rfl, show ("." : String).data = ['.'] from rfl]
  rw [List.reverse_append]
  rw [List.takeWhile_append_of_pos (by
    intro c hc
    simpa using hl c (List.mem_reverse.mp hc))]
  rw [List.reverse_append]
  simp

/-- `toFixed` keeps its contract of exactly `d` digits after the decimal
point. -/
theorem decimalPlaces_toFixed (q : ℚ) (d : Nat) :
    decimalPlaces (toFixed q d) = d := by
  unfold toFixed fixedFrac
  rw [decimalPlaces_append_frac]
  · simp
  · intro c hc
    rcases List.mem_map.mp hc with ⟨i, hi, rfl⟩
    exact decDigit_ne_dot _

/-! ## Data model of the analysis response

The parsed JSON body of a successful response.  Every field is optional:
a missing (`undefined`) field is `none`.  Numbers are rationals, and
`access_score` ("numeric or text score, displayed verbatim") is kept in its
verbatim display form. -/

structure SlopeAnalysis where
  elevation_change_meters : Option ℚ
  slope_classification : Option String
  buildability_assessment : Option String
  deriving Repr, DecidableEq

structure AnalysisData where
  address : Option String
  latitude : Option ℚ
  longitude : Option ℚ
  elevation_min : Option ℚ
  elevation_max : Option ℚ
  elevation_avg : Option ℚ
  slope_analysis : Option SlopeAnalysis
  access_score : Option String
  report_pdf : Option String
  deriving Repr, DecidableEq

/-- A thrown JavaScript error; `message` is `none` when the error carries
no message. -/
structure JsError where
  message : Option String
  deriving Repr, DecidableEq

/-- `TypeError` raised when a missing (`undefined`) value is used where an
object or a number is required (`undefined.toFixed`, reading a property of
`undefined`). -/
def jsTypeError : JsError := ⟨some "TypeError"⟩

/-- Setting `textContent` from a possibly `undefined` value: `undefined`
converts to `null` for the nullable DOM attribute, which clears the text. -/
def jsText (s : Option String) : String := s.getD ""

/-- `x || fallback` on a possibly missing string: the fallback is taken
when the value is `undefined` or empty (falsy). -/
def jsOrElse (s : Option String) (fallback : String) : String :=
  match s with
  | none => fallback
  | some v => if v = "" then fallback else v

/-! ## UI state

The DOM fields read and written by `script.js`, plus the module-level
`currentReportPDF` slot. -/

structure UIState where
  currentReportPDF : Option String
  loadingHidden : Bool
  resultsHidden : Bool
  errorHidden : Bool
  errorMsg : String
  resultAddress : String
  resultCoords : String
  elevMin : String
  elevMax : String
  elevAvg : String
  elevChange : String
  slopeClass : String
  buildability : String
  accessScore : String
  deriving Repr, DecidableEq

/-- `showError` (`script.js` lines 73–77): writes the message into the
error area and unhides it. -/
def showError (message : String) (st : UIState) : UIState :=
  { st with errorMsg := message, errorHidden := false }

/-- JavaScript falsiness of the stored payload (`!currentReportPDF`):
`null`/`undefined` or the empty string. -/
def reportFalsy (p : Option String) : Bool :=
  match p with
  | none => true
  | some s => s = ""

/-- `displayResults` (`script.js` lines 46–71), statement by statement:
stores the report payload, then writes each display field in source order.
A step that uses a missing value where JavaScript would throw (reading
`slope_analysis` of `undefined`, or calling `toFixed` on `undefined`)
stops with that error; the writes already performed persist. -/
def displayResults (data : AnalysisData) (st0 : UIState) :
    UIState × Except JsError Unit :=
  let st1 := { st0 with currentReportPDF := data.report_pdf }
  let st2 := { st1 with resultAddress := jsText data.address }
  match data.latitude with
  | none => (st2, .error jsTypeError)
  | some lat =>
    match data.longitude with
    | none => (st2, .error jsTypeError)
    | some lon =>
      let st3 := { st2 with resultCoords :=
        "Coordinates: " ++ toFixed lat 6 ++ ", " ++ toFixed lon 6 }
      match data.elevation_min with
      | none => (st3, .error jsTypeError)
      | some emin =>
        let st4 := { st3 with elevMin := toFixed emin 1 ++ "m" }
        match data.elevation_max with
        | none => (st4, .error jsTypeError)
        | some emax =>
          let st5 := { st4 with elevMax := toFixed emax 1 ++ "m" }
          match data.elevation_avg with
          | none => (st5, .error jsTypeError)
          | some eavg =>
            let st6 := { st5 with elevAvg := toFixed eavg 1 ++ "m" }
            match data.slope_analysis with
            | none => (st6, .error jsTypeError)
            | some sa =>
              match sa.elevation_change_meters with
              | none => (st6, .error jsTypeError)
              | some ech =>
                let st7 := { st6 with elevChange := toFixed ech 1 ++ "m" }
                let st8 := { st7 with
                  slopeClass := jsText sa.slope_classification,
                  buildability := jsText sa.buildability_assessment,
                  accessScore := jsText data.access_score }
                ({ st8 with resultsHidden := false }, .ok ())

/-- Model of JavaScript's `String.prototype.trim`: removes leading and
trailing whitespace. -/
def jsTrim (s : String) : String :=
  String.mk (((s.data.dropWhile Char.isWhitespace).reverse.dropWhile
    Char.isWhitespace).reverse)

/-! ## The submit handler

What `fetch` and the two `response.json()` calls do is an input of the
model: the environment's behaviour for the single request the handler
issues. -/

inductive FetchResult where
  /-- The fetch promise rejects (transport failure); the thrown error
  carries an optional message. -/
  | reject (msg : Option String)
  /-- A response with `ok = true`; `response.json()` either throws or
  yields the parsed analysis data. -/
  | okResponse (body : Except JsError AnalysisData)
  /-- A response with `ok = false`; `response.json()` either throws or
  yields a body whose `detail` field is the given optional string. -/
  | errResponse (body : Except JsError (Option String))
  deriving Repr

/-- The submit handler (`script.js` lines 6–44).  Returns the final state,
the number of network requests issued, and the exception escaping the
handler (always `Except.ok` because of the `try`/`catch`).  The
`try` block throws `new Error(errorData.detail || 'Analysis failed')` on a
non-ok response, rethrows `fetch`/`json` failures, and calls
`displayResults` on success; the `catch` shows
`error.message || 'Failed to analyze site. Please try again.'`; the
`finally` hides the loading indicator. -/
def submitAnalysis (addressInput : String) (fetchResult : FetchResult)
    (st0 : UIState) : UIState × Nat × Except JsError Unit :=
  let address := jsTrim addressInput
  if address = "" then
    (showError "Please enter an address" st0, 0, .ok ())
  else
    let st1 := { st0 with loadingHidden := false, resultsHidden := true,
                          errorHidden := true }
    let tryOutcome : UIState × Except JsError Unit :=
      match fetchResult with
      | .reject msg => (st1, .error ⟨msg⟩)
      | .errResponse (.error e) => (st1, .error e)
      | .errResponse (.ok detail) =>
        (st1, .error ⟨some (jsOrElse detail "Analysis failed")⟩)
      | .okResponse (.error e) => (st1, .error e)
      | .okResponse (.ok data) => displayResults data st1
    let st2 := match tryOutcome.2 with
      | .ok _ => tryOutcome.1
      | .error e =>
        showError (jsOrElse e.message "Failed to analyze site. Please try again.")
          tryOutcome.1
    ({ st2 with loadingHidden := true }, 1, .ok ())

/-! ## The download handler -/

/-- The browser-level save action triggered by the download handler. -/
structure DownloadAction where
  bytes : List Nat
  filename : String
  mediaType : String
  deriving Repr, DecidableEq

/-- The download handler (`script.js` lines 80–103).  Returns the final
state and either the exception escaping the handler (there is no
`try`/`catch` around the decode) or the save action performed (`none`
when the handler returned early without saving). -/
def downloadReport (st : UIState) : UIState × Except JsError (Option DownloadAction) :=
  if reportFalsy st.currentReportPDF then
    (showError "No report available to download" st, .ok none)
  else
    match downloadDecode (st.currentReportPDF.getD "") with
    | none => (st, .error ⟨some "InvalidCharacterError"⟩)
    | some byteNumbers =>
      (st, .ok (some ⟨byteNumbers, "site-analysis-report.pdf", "application/pdf"⟩))

/-- A concrete page state, used to instantiate the theorems: the state at
page load (no stored report, loading hidden, results and error hidden,
all text fields empty). -/
def initialState : UIState :=
  { currentReportPDF := none, loadingHidden := true, resultsHidden := true,
    errorHidden := true, errorMsg := "", resultAddress := "",
    resultCoords := "", elevMin := "", elevMax := "", elevAvg := "",
    elevChange := "", slopeClass := "", buildability := "", accessScore := "" }

/-! ## Helper lemmas about the handlers -/

/-- The first statement of `displayResults` stores the report payload, so the
slot holds the new payload on every exit, error or not. -/
theorem displayResults_reportPDF (data : AnalysisData) (st : UIState) :
    (displayResults data st).1.currentReportPDF = data.report_pdf := by
  unfold displayResults
  repeat' split
  all_goals rfl

/-- A response whose `latitude` is missing makes the rendering throw. -/
theorem displayResults_error_of_lat_none (data : AnalysisData) (st : UIState)
    (hmiss : data.latitude = none) :
    (displayResults data st).2 = Except.error jsTypeError := by
  simp only [displayResults, hmiss]

/-! ## Claims -/

/-- C1: on every successful analysis response (all fields present),
`displayResults` populates every display field from the result structure with
no omission and with fixed numeric formatting: the address verbatim, latitude
and longitude each with exactly 6 decimal places, the four elevation figures
each with exactly 1 decimal place followed by `m`, the slope classification
and buildability assessment verbatim, and the access score verbatim. -/
theorem displayResults_renders_all_fields (a : String)
    (lat lon emin emax eavg ech : ℚ) (sc ba asc : String) (rp : Option String)
    (st : UIState) :
    let r := displayResults ⟨some a, some lat, some lon, some emin, some emax,
      some eavg, some ⟨some ech, some sc, some ba⟩, some asc, rp⟩ st
    r.2 = Except.ok () ∧
    r.1.resultAddress = a ∧
    r.1.resultCoords = "Coordinates: " ++ toFixed lat 6 ++ ", " ++ toFixed lon 6 ∧
    decimalPlaces (toFixed lat 6) = 6 ∧
    decimalPlaces (toFixed lon 6) = 6 ∧
    r.1.elevMin = toFixed emin 1 ++ "m" ∧
    decimalPlaces (toFixed emin 1) = 1 ∧
    r.1.elevMax = toFixed emax 1 ++ "m" ∧
    decimalPlaces (toFixed emax 1) = 1 ∧
    r.1.elevAvg = toFixed eavg 1 ++ "m" ∧
    decimalPlaces (toFixed eavg 1) = 1 ∧
    r.1.elevChange = toFixed ech 1 ++ "m" ∧
    decimalPlaces (toFixed ech 1) = 1 ∧
    r.1.slopeClass = sc ∧
    r.1.buildability = ba ∧
    r.1.accessScore = asc ∧
    r.1.resultsHidden = false := by
  intro r
  refine ⟨rfl, rfl, rfl, decimalPlaces_toFixed lat 6, decimalPlaces_toFixed lon 6,
    rfl, decimalPlaces_toFixed emin 1, rfl, decimalPlaces_toFixed emax 1,
    rfl, decimalPlaces_toFixed eavg 1, rfl, decimalPlaces_toFixed ech 1,
    rfl, rfl, rfl, rfl⟩

/-- C2: the decode step of the download handler is a left inverse of standard
base64 encoding: for every byte sequence (the empty one included), decoding
its base64 encoding yields the original byte sequence. -/
theorem downloadDecode_base64Encode (bs : List Nat) (h : ∀ b ∈ bs, b < 256) :
    downloadDecode (base64Encode bs) = some bs := by
  unfold downloadDecode
  rw [atob_base64Encode bs h]
  show some ((List.range bs.length).map fun i => bs.getD i 0) = some bs
  rw [map_range_getD]

theorem downloadDecode_base64Encode_witness :
    (∀ b ∈ [0, 1, 77, 128, 254, 255, 33], b < 256) ∧
    downloadDecode (base64Encode [0, 1, 77, 128, 254, 255, 33])
      = some [0, 1, 77, 128, 254, 255, 33] :=
  ⟨by decide, downloadDecode_base64Encode _ (by decide)⟩

/-- C3 counterexample: a failure response whose body is unparsable
(`response.json()` throws a `SyntaxError`) surfaces the parse error's own
message, not the fallback "Analysis failed", contrary to the claim. -/
theorem submit_unparsable_body_cex :
    (submitAnalysis "350 S 400 E, Salt Lake City, UT"
      (.errResponse (.error ⟨some "Unexpected end of JSON input"⟩))
      initialState).1.errorMsg = "Unexpected end of JSON input" ∧
    (submitAnalysis "350 S 400 E, Salt Lake City, UT"
      (.errResponse (.error ⟨some "Unexpected end of JSON input"⟩))
      initialState).1.errorMsg ≠ "Analysis failed" := by
  refine ⟨rfl, ?_⟩
  decide

/-- C3 (amended): on an unsuccessful response, the `detail` text of the body
is surfaced when present and non-empty; the fallback "Analysis failed" is
surfaced exactly when the body parses but `detail` is absent or empty; when
the body is missing or unparsable, the message of the JSON parsing error is
surfaced instead. -/
theorem submit_service_error_messages (addr : String) (st : UIState)
    (h : jsTrim addr ≠ "") :
    (∀ d : String, d ≠ "" →
      (submitAnalysis addr (.errResponse (.ok (some d))) st).1.errorMsg = d) ∧
    (∀ d : Option String, d = none ∨ d = some "" →
      (submitAnalysis addr (.errResponse (.ok d)) st).1.errorMsg
        = "Analysis failed") ∧
    (∀ m : String, m ≠ "" →
      (submitAnalysis addr (.errResponse (.error ⟨some m⟩)) st).1.errorMsg = m) := by
  refine ⟨?_, ?_, ?_⟩
  · intro d hd
    simp [submitAnalysis, if_neg h, jsOrElse, showError, hd]
  · intro d hd
    rcases hd with rfl | rfl <;> simp [submitAnalysis, if_neg h, jsOrElse, showError]
  · intro m hm
    simp [submitAnalysis, if_neg h, jsOrElse, showError, hm]

theorem submit_service_error_messages_witness :
    jsTrim "350 S 400 E" ≠ "" ∧
    (submitAnalysis "350 S 400 E" (.errResponse (.ok (some "bad address")))
      initialState).1.errorMsg = "bad address" ∧
    (submitAnalysis "350 S 400 E" (.errResponse (.ok none))
      initialState).1.errorMsg = "Analysis failed" :=
  ⟨by decide,
   (submit_service_error_messages "350 S 400 E" initialState (by decide)).1
     "bad address" (by decide),
   (submit_service_error_messages "350 S 400 E" initialState (by decide)).2.1
     none (Or.inl rfl)⟩

/-- C4 counterexample: a whitespace-only address is rejected before any
network call, but the displayed description is "Please enter an address",
not the claimed "address required". -/
theorem submit_empty_address_message_cex :
    (submitAnalysis "   " (.reject none) initialState).1.errorMsg
      = "Please enter an address" ∧
    (submitAnalysis "   " (.reject none) initialState).1.errorMsg
      ≠ "address required" ∧
    (submitAnalysis "   " (.reject none) initialState).2.1 = 0 := by
  refine ⟨rfl, ?_, rfl⟩
  decide

/-- C4 (amended): for every address that is empty after trimming, the submit
handler fails immediately — showing the validation message "Please enter an
address" — and issues no network call, leaving the rest of the state
untouched. -/
theorem submit_empty_address_rejects (addr : String) (f : FetchResult)
    (st : UIState) (h : jsTrim addr = "") :
    submitAnalysis addr f st
      = (showError "Please enter an address" st, 0, Except.ok ()) := by
  simp [submitAnalysis, h]

theorem submit_empty_address_rejects_witness :
    jsTrim " " = "" ∧
    submitAnalysis " " (.reject none) initialState
      = (showError "Please enter an address" initialState, 0, Except.ok ()) :=
  ⟨by decide, submit_empty_address_rejects " " (.reject none) initialState (by decide)⟩

/-- C5: once the pending state is entered (non-empty trimmed address), the
loading indicator is hidden in the final state of every outcome — success,
service error, transport error, or an error thrown during fetching, body
parsing or rendering. -/
theorem submit_clears_loading (addr : String) (f : FetchResult) (st : UIState)
    (h : jsTrim addr ≠ "") :
    (submitAnalysis addr f st).1.loadingHidden = true := by
  simp only [submitAnalysis, if_neg h]

theorem submit_clears_loading_witness :
    jsTrim "350 S 400 E" ≠ "" ∧
    (submitAnalysis "350 S 400 E" (.reject none) initialState).1.loadingHidden
      = true :=
  ⟨by decide, submit_clears_loading "350 S 400 E" (.reject none) initialState
    (by decide)⟩

/-- C6: whenever the download handler runs with no stored report payload, it
shows "No report available to download" and performs no decode and no save
action, leaving the rest of the state untouched. -/
theorem download_no_payload (st : UIState) (h : st.currentReportPDF = none) :
    downloadReport st
      = (showError "No report available to download" st, Except.ok none) := by
  simp [downloadReport, reportFalsy, h]

theorem download_no_payload_witness :
    initialState.currentReportPDF = none ∧
    downloadReport initialState
      = (showError "No report available to download" initialState,
         Except.ok none) :=
  ⟨rfl, download_no_payload initialState rfl⟩

/-- C7 counterexample: a stored payload that is not valid base64 makes the
download handler throw an uncaught `InvalidCharacterError` — the error
escapes the component instead of being converted to a displayed message. -/
theorem download_invalid_payload_uncaught_cex :
    (downloadReport { initialState with currentReportPDF := some "!!!!" }).2
      = Except.error ⟨some "InvalidCharacterError"⟩ := rfl

/-- C7 (amended): every error in the submit handler is caught and converted
to a displayed message (no exception escapes it), but the download handler
has no catch: decoding a stored payload that is not valid base64 throws an
uncaught `InvalidCharacterError` that propagates as an unhandled fault. -/
theorem submit_caught_download_decode_escapes (addr : String) (f : FetchResult)
    (st : UIState) (p : String) (hp : st.currentReportPDF = some p)
    (hpe : p ≠ "") (hbad : atob p = none) :
    (submitAnalysis addr f st).2.2 = Except.ok () ∧
    (downloadReport st).2 = Except.error ⟨some "InvalidCharacterError"⟩ := by
  constructor
  · by_cases haddr : jsTrim addr = "" <;> simp [submitAnalysis, haddr]
  · simp [downloadReport, reportFalsy, hp, hpe, downloadDecode, hbad]

theorem submit_caught_download_decode_escapes_witness :
    ({ initialState with currentReportPDF := some "!!!!" } : UIState).currentReportPDF
      = some "!!!!" ∧
    "!!!!" ≠ "" ∧
    atob "!!!!" = none ∧
    ((submitAnalysis "x" (.reject none)
        { initialState with currentReportPDF := some "!!!!" }).2.2
      = Except.ok () ∧
     (downloadReport { initialState with currentReportPDF := some "!!!!" }).2
      = Except.error ⟨some "InvalidCharacterError"⟩) :=
  ⟨rfl, by decide, by decide,
   submit_caught_download_decode_escapes "x" (.reject none)
     { initialState with currentReportPDF := some "!!!!" } "!!!!" rfl
     (by decide) (by decide)⟩

/-- C8: on a transport-level failure, the displayed message is the underlying
failure's description when one is available (non-empty), and exactly
"Failed to analyze site. Please try again." when the failure carries no
message or an empty one. -/
theorem submit_transport_messages (addr : String) (st : UIState)
    (h : jsTrim addr ≠ "") :
    (∀ m : String, m ≠ "" →
      (submitAnalysis addr (.reject (some m)) st).1.errorMsg = m) ∧
    (submitAnalysis addr (.reject none) st).1.errorMsg
      = "Failed to analyze site. Please try again." ∧
    (submitAnalysis addr (.reject (some "")) st).1.errorMsg
      = "Failed to analyze site. Please try again." := by
  refine ⟨?_, ?_, ?_⟩
  · intro m hm
    simp [submitAnalysis, if_neg h, jsOrElse, showError, hm]
  · simp [submitAnalysis, if_neg h, jsOrElse, showError]
  · simp [submitAnalysis, if_neg h, jsOrElse, showError]

theorem submit_transport_messages_witness :
    jsTrim "350 S 400 E" ≠ "" ∧
    (submitAnalysis "350 S 400 E" (.reject (some "net down"))
      initialState).1.errorMsg = "net down" ∧
    (submitAnalysis "350 S 400 E" (.reject none) initialState).1.errorMsg
      = "Failed to analyze site. Please try again." :=
  ⟨by decide,
   (submit_transport_messages "350 S 400 E" initialState (by decide)).1
     "net down" (by decide),
   (submit_transport_messages "350 S 400 E" initialState (by decide)).2.1⟩

/-- C9: a successful response fully replaces the stored report payload with
the response's `report_pdf` (becoming empty when the response has none),
while every failed attempt — validation, transport, service failure, or a
body-parse failure — leaves the slot unchanged; the download handler never
changes it either. -/
theorem submit_report_slot_lifecycle (addr addr0 : String) (st : UIState)
    (h : jsTrim addr ≠ "") (h0 : jsTrim addr0 = "") :
    (∀ data : AnalysisData,
      (submitAnalysis addr (.okResponse (.ok data)) st).1.currentReportPDF
        = data.report_pdf) ∧
    (∀ f : FetchResult,
      (submitAnalysis addr0 f st).1.currentReportPDF = st.currentReportPDF) ∧
    (∀ msg : Option String,
      (submitAnalysis addr (.reject msg) st).1.currentReportPDF
        = st.currentReportPDF) ∧
    (∀ body : Except JsError (Option String),
      (submitAnalysis addr (.errResponse body) st).1.currentReportPDF
        = st.currentReportPDF) ∧
    (∀ e : JsError,
      (submitAnalysis addr (.okResponse (.error e)) st).1.currentReportPDF
        = st.currentReportPDF) ∧
    (downloadReport st).1.currentReportPDF = st.currentReportPDF := by
  refine ⟨?_, ?_, ?_, ?_, ?_, ?_⟩
  · intro data
    simp only [submitAnalysis, if_neg h]
    split <;> simp [showError, displayResults_reportPDF]
  · intro f
    simp [submitAnalysis, h0, showError]
  · intro msg
    simp [submitAnalysis, if_neg h, showError]
  · intro body
    rcases body with e | d <;> simp [submitAnalysis, if_neg h, showError]
  · intro e
    simp [submitAnalysis, if_neg h, showError]
  · unfold downloadReport
    split
    · rfl
    · split <;> rfl

theorem submit_report_slot_lifecycle_witness :
    jsTrim "350 S 400 E" ≠ "" ∧
    jsTrim " " = "" ∧
    (submitAnalysis "350 S 400 E"
      (.okResponse (.ok ⟨some "a", none, none, none, none, none, none, none,
        some "QUJD"⟩)) initialState).1.currentReportPDF = some "QUJD" ∧
    (submitAnalysis "350 S 400 E" (.reject none)
      initialState).1.currentReportPDF = none :=
  ⟨by decide, by decide,
   (submit_report_slot_lifecycle "350 S 400 E" " " initialState (by decide)
     (by decide)).1 ⟨some "a", none, none, none, none, none, none, none,
       some "QUJD"⟩,
   (submit_report_slot_lifecycle "350 S 400 E" " " initialState (by decide)
     (by decide)).2.2.1 none⟩

/-- C10: on a successful HTTP response the report slot is overwritten before
any display field is rendered, so when rendering fails partway (here: the
required `latitude` is missing, making the formatting step throw) the
operation surfaces an error while the slot already holds the new response's
payload — the submit handler is not atomic for the report slot. -/
theorem submit_render_failure_nonatomic (addr : String) (st : UIState)
    (data : AnalysisData) (h : jsTrim addr ≠ "") (hmiss : data.latitude = none)
    (hnew : data.report_pdf ≠ st.currentReportPDF) :
    (submitAnalysis addr (.okResponse (.ok data)) st).1.currentReportPDF
      = data.report_pdf ∧
    (submitAnalysis addr (.okResponse (.ok data)) st).1.currentReportPDF
      ≠ st.currentReportPDF ∧
    (submitAnalysis addr (.okResponse (.ok data)) st).1.errorHidden = false ∧
    (displayResults data st).2 = Except.error jsTypeError := by
  have hslot : (submitAnalysis addr (.okResponse (.ok data)) st).1.currentReportPDF
      = data.report_pdf := by
    simp only [submitAnalysis, if_neg h]
    split <;> simp [showError, displayResults_reportPDF]
  refine ⟨hslot, by rw [hslot]; exact hnew, ?_, displayResults_error_of_lat_none data st hmiss⟩
  simp only [submitAnalysis, if_neg h]
  split
  · rename_i u heq
    rw [displayResults_error_of_lat_none data _ hmiss] at heq
    cases heq
  · simp [showError]

theorem submit_render_failure_nonatomic_witness :
    jsTrim "350 S 400 E" ≠ "" ∧
    (⟨some "a", none, some 1, some 2, some 3, some 4,
      some ⟨some 5, some "s", some "b"⟩, some "7", some "QUJD"⟩ :
        AnalysisData).latitude = none ∧
    (⟨some "a", none, some 1, some 2, some 3, some 4,
      some ⟨some 5, some "s", some "b"⟩, some "7", some "QUJD"⟩ :
        AnalysisData).report_pdf ≠ initialState.currentReportPDF ∧
    ((submitAnalysis "350 S 400 E"
      (.okResponse (.ok ⟨some "a", none, some 1, some 2, some 3, some 4,
        some ⟨some 5, some "s", some "b"⟩, some "7", some "QUJD"⟩))
      initialState).1.currentReportPDF = some "QUJD" ∧
     (submitAnalysis "350 S 400 E"
      (.okResponse (.ok ⟨some "a", none, some 1, some 2, some 3, some 4,
        some ⟨some 5, some "s", some "b"⟩, some "7", some "QUJD"⟩))
      initialState).1.currentReportPDF ≠ initialState.currentReportPDF ∧
     (submitAnalysis "350 S 400 E"
      (.okResponse (.ok ⟨some "a", none, some 1, some 2, some 3, some 4,
        some ⟨some 5, some "s", some "b"⟩, some "7", some "QUJD"⟩))
      initialState).1.errorHidden = false ∧
     (displayResults ⟨some "a", none, some 1, some 2, some 3, some 4,
        some ⟨some 5, some "s", some "b"⟩, some "7", some "QUJD"⟩
        initialState).2 = Except.error jsTypeError) :=
  ⟨by decide, rfl, by decide,
   submit_render_failure_nonatomic "350 S 400 E" initialState
     ⟨some "a", none, some 1, some 2, some 3, some 4,
       some ⟨some 5, some "s", some "b"⟩, some "7", some "QUJD"⟩
     (by decide) rfl (by decide)⟩

end SiteAnalyzer
